import Mathlib

/-!
Verification of `lutris/util/sql.py`: a thin SQLite convenience layer
(retrying query executor plus insert/update/delete/select helpers).

The Python module is shallowly embedded.  Effects are made explicit:

* A `Cursor` is an oracle describing how the database engine at the
  connected file behaves: `exec q p n` is the outcome of executing the
  statement `q` with bind parameters `p` on the `n`-th attempt (attempts
  are numbered from 1; sqlite may answer differently on a retry, which is
  the whole point of the retry loop), `fetch`/`descr` give the fetched
  rows and the cursor description for a successfully executed query, and
  `lastrowid` is the rowid reported after an insert.
* Exceptions are an `Except PyErr` outcome.
* Side effects (logger calls, sleeps, prints, connection lifecycle) are
  an explicit `List Event` trace.

Python values bound as SQL parameters are modelled by `PyVal`.
-/

/-- Python values that flow through this module as SQL parameters and
result cells: strings, integers and NULL/None are all this code ever
distinguishes. -/
inductive PyVal where
  | vStr (s : String)
  | vInt (n : Int)
  | vNull
deriving DecidableEq

/-- `str(v)`: how Python renders a value inside a `format` call when it is
spliced into a query string (used for `condition[0]` in `db_select`). -/
def PyVal.pyStr : PyVal → String
  | PyVal.vStr s => s
  | PyVal.vInt n => toString n
  | PyVal.vNull => "None"

/-- The exceptions this module distinguishes: `sqlite3.OperationalError`
(transient, retried), `sqlite3.IntegrityError` (caught in `db_insert`),
`AssertionError` (the `assert len(condition) == 2` in `db_select`), and
everything else. -/
inductive PyErr where
  | op (msg : String)
  | integrity (msg : String)
  | assertErr
  | other (msg : String)
deriving DecidableEq

/-- Whether an exception is caught by `except sqlite3.OperationalError`. -/
def PyErr.isOp : PyErr → Bool
  | PyErr.op _ => true
  | _ => false

/-- The message carried by the exception (what `logger.error(ex)` logs). -/
def PyErr.msg : PyErr → String
  | PyErr.op m => m
  | PyErr.integrity m => m
  | PyErr.assertErr => "AssertionError"
  | PyErr.other m => m

/-- Observable side effects, in program order. -/
inductive Event where
  | connect (dbPath : String)
  | commit
  | close
  | logRetry (query : String) (remaining : Nat)
  | logErr (msg : String)
  | sleep (t : Nat)
  | printStr (s : String)
  | printVals (vs : List PyVal)
deriving DecidableEq

/-- `Event.logRetry` recogniser, for counting retry-log entries. -/
def Event.isRetryLog : Event → Bool
  | Event.logRetry _ _ => true
  | _ => false

/-- `Event.sleep` recogniser, for counting sleeps. -/
def Event.isSleep : Event → Bool
  | Event.sleep _ => true
  | _ => false

/-- The database engine as seen through one connection's cursor. -/
structure Cursor where
  exec : String → List PyVal → Nat → Except PyErr Unit
  fetch : String → List PyVal → List (List PyVal)
  descr : String → List PyVal → List String
  lastrowid : Int

/-- Number of attempts to retry failed queries (`DB_RETRIES = 5`). -/
def DB_RETRIES : Nat := 5

/-- The `while True` loop of `cursor_execute`.  The Python loop counts
failures in `i` and raises when `i == DB_RETRIES`; here `fuel` is the
equal quantity `DB_RETRIES - i`, so the loop body runs with `fuel ≥ 1`
and the re-raise happens when `fuel = 1` (the increment `i += 1` makes
`i = DB_RETRIES`).  Returns the outcome, the trace of logger/sleep
events, and the number of execution attempts made. -/
def cursorExecuteGo (cursor : Cursor) (query : String) (params : List PyVal) :
    Nat → Nat → Except PyErr Unit × List Event × Nat
  | attempt, 0 =>
    match cursor.exec query params attempt with
    | Except.ok u => (Except.ok u, [], 1)
    | Except.error e => (Except.error e, [], 1)
  | attempt, 1 =>
    match cursor.exec query params attempt with
    | Except.ok u => (Except.ok u, [], 1)
    | Except.error e => (Except.error e, [], 1)
  | attempt, (f + 2) =>
    match cursor.exec query params attempt with
    | Except.ok u => (Except.ok u, [], 1)
    | Except.error e =>
      if e.isOp then
        let r := cursorExecuteGo cursor query params (attempt + 1) (f + 1)
        (r.1,
         Event.logRetry query (f + 1) :: Event.logErr e.msg :: Event.sleep 1 :: r.2.1,
         r.2.2 + 1)
      else (Except.error e, [], 1)

/-- `cursor_execute(cursor, query, params=None)`: retry the query on
`sqlite3.OperationalError` up to `DB_RETRIES` total attempts, logging the
query with the remaining retry count and the exception and sleeping 1
second between attempts; any other exception propagates at once.
(`params=None` is replaced by the empty tuple, modelled by the `[]`
default.) -/
def cursor_execute (cursor : Cursor) (query : String) (params : List PyVal := []) :
    Except PyErr Unit × List Event × Nat :=
  cursorExecuteGo cursor query params 1 DB_RETRIES

/-- The `with db_cursor(db_path) as cursor:` context manager.  `__enter__`
connects and yields a cursor; `__exit__` runs on every exit path (normal
return or exception), committing and then closing the connection before
the outcome — value or exception — leaves the block. -/
def db_cursor_run {α : Type} (dbPath : String) (body : Except PyErr α × List Event) :
    Except PyErr α × List Event :=
  (body.1, Event.connect dbPath :: body.2 ++ [Event.commit, Event.close])

/-- `_decode_utf8_values(values_list)`: the Python 3 version copies each
string to itself, so the function just returns the values as a tuple. -/
def decode_utf8_values (values_list : List PyVal) : List PyVal :=
  values_list

/-- The query string built by `db_insert`:
`"insert into {table}({columns}) values ({placeholders})"` with
`columns = ", ".join(fields.keys())` and
`placeholders = ("?, " * len(fields))[:-2]`. -/
def insert_query (table : String) (fields : List (String × PyVal)) : String :=
  let columns := String.intercalate ", " (fields.map Prod.fst)
  let placeholders := (String.join (List.replicate fields.length "?, ")).dropRight 2
  "insert into " ++ table ++ "(" ++ columns ++ ") values (" ++ placeholders ++ ")"

/-- `db_insert(db_path, table, fields)`.  A Python dict is modelled as an
association list in insertion order, so `fields.keys()` is
`fields.map Prod.fst` and `fields.values()` is `fields.map Prod.snd`.
On `sqlite3.IntegrityError` the columns and values are printed and the
error is re-raised; on success the cursor's `lastrowid` is returned. -/
def db_insert (dbPath : String) (cursor : Cursor) (table : String)
    (fields : List (String × PyVal)) : Except PyErr Int × List Event :=
  let columns := String.intercalate ", " (fields.map Prod.fst)
  let field_values := decode_utf8_values (fields.map Prod.snd)
  let query := insert_query table fields
  let r := cursor_execute cursor query field_values
  let body : Except PyErr Int × List Event :=
    match r.1 with
    | Except.ok _ => (Except.ok cursor.lastrowid, r.2.1)
    | Except.error (PyErr.integrity m) =>
        (Except.error (PyErr.integrity m),
         r.2.1 ++ [Event.printStr columns, Event.printVals field_values])
    | Except.error e => (Except.error e, r.2.1)
  db_cursor_run dbPath body

/-- The query string built by `db_update`:
`"UPDATE {table} SET {columns} WHERE {condition_field}"` with
`columns = "=?, ".join(updated_fields.keys()) + "=?"` and
`condition_field = "{row[0]}=?"`. -/
def update_query (table : String) (updated_fields : List (String × PyVal))
    (row : String × PyVal) : String :=
  let columns := String.intercalate "=?, " (updated_fields.map Prod.fst) ++ "=?"
  "UPDATE " ++ table ++ " SET " ++ columns ++ " WHERE " ++ row.1 ++ "=?"

/-- `db_update(db_path, table, updated_fields, row)`: update `table` with
the values of the dict `updated_fields` on the equality condition given
by the `(column, value)` pair `row`. -/
def db_update (dbPath : String) (cursor : Cursor) (table : String)
    (updated_fields : List (String × PyVal)) (row : String × PyVal) :
    Except PyErr Unit × List Event :=
  let field_values := decode_utf8_values (updated_fields.map Prod.snd)
  let r := cursor_execute cursor (update_query table updated_fields row)
    (field_values ++ [row.2])
  db_cursor_run dbPath (r.1, r.2.1)

/-- `db_delete(db_path, table, field, value)`: delete the rows of `table`
where `field` equals `value`. -/
def db_delete (dbPath : String) (cursor : Cursor) (table : String)
    (field : String) (value : PyVal) : Except PyErr Unit × List Event :=
  let r := cursor_execute cursor ("delete from " ++ table ++ " where " ++ field ++ "=?")
    [value]
  db_cursor_run dbPath (r.1, r.2.1)

/-- `row_data[column] = row[index]`: Python dict assignment.  An existing
key keeps its position and gets the new value; a new key is appended. -/
def dictAssign (d : List (String × PyVal)) (k : String) (v : PyVal) :
    List (String × PyVal) :=
  if k ∈ d.map Prod.fst then d.map (fun kv => if kv.1 = k then (k, v) else kv)
  else d ++ [(k, v)]

/-- The row-materialization loop shared (textually duplicated) by
`db_select` and `db_query`:
`for index, column in enumerate(column_names): row_data[column] = row[index]`.
sqlite guarantees `len(row) = len(column_names)`, so the `row[index]`
access is in bounds; out-of-range reads are given the default `vNull`. -/
def buildRowDict (column_names : List String) (row : List PyVal) :
    List (String × PyVal) :=
  column_names.enum.foldl
    (fun d ic => dictAssign d ic.2 (row.getD ic.1 PyVal.vNull)) []

/-- `columns` in `db_select`: `", ".join(fields) if fields else "*"`.
`fields` is falsy when it is `None` or the empty list. -/
def select_columns (fields : Option (List String)) : String :=
  match fields with
  | some (f :: fs) => String.intercalate ", " (f :: fs)
  | _ => "*"

/-- The query and parameters built inside `db_select`'s `with` block.  A
Python tuple is modelled as a list, so `condition` is falsy when it is
`None` or empty; when truthy, `assert len(condition) == 2` raises
`AssertionError` unless the condition is a pair. -/
def select_query_params (table : String) (fields : Option (List String))
    (condition : Option (List PyVal)) : Except PyErr (String × List PyVal) :=
  match condition with
  | some [c0, c1] =>
      Except.ok ("SELECT " ++ select_columns fields ++ " FROM " ++ table ++
        " where " ++ c0.pyStr ++ "=?", [c1])
  | some [] =>
      Except.ok ("SELECT " ++ select_columns fields ++ " FROM " ++ table, [])
  | none =>
      Except.ok ("SELECT " ++ select_columns fields ++ " FROM " ++ table, [])
  | some _ => Except.error PyErr.assertErr

/-- `db_select(db_path, table, fields=None, condition=None)`.  The rows
and column names are read inside the `with` block; the result list of
column-name-to-value dicts is built afterwards (a pure loop producing no
events, so the trace is unchanged by where it happens). -/
def db_select (dbPath : String) (cursor : Cursor) (table : String)
    (fields : Option (List String) := none) (condition : Option (List PyVal) := none) :
    Except PyErr (List (List (String × PyVal))) × List Event :=
  let body : Except PyErr (List (List (String × PyVal))) × List Event :=
    match select_query_params table fields condition with
    | Except.error e => (Except.error e, [])
    | Except.ok qp =>
      let r := cursor_execute cursor qp.1 qp.2
      match r.1 with
      | Except.error e => (Except.error e, r.2.1)
      | Except.ok _ =>
        (Except.ok ((cursor.fetch qp.1 qp.2).map (buildRowDict (cursor.descr qp.1 qp.2))),
         r.2.1)
  db_cursor_run dbPath body

/-- `db_query(db_path, query, params=())`: execute a raw query and
materialize the fetched rows as column-name-to-value dicts, exactly as
`db_select` does. -/
def db_query (dbPath : String) (cursor : Cursor) (query : String)
    (params : List PyVal := []) :
    Except PyErr (List (List (String × PyVal))) × List Event :=
  let body : Except PyErr (List (List (String × PyVal))) × List Event :=
    match (cursor_execute cursor query params).1 with
    | Except.error e => (Except.error e, (cursor_execute cursor query params).2.1)
    | Except.ok _ =>
      (Except.ok ((cursor.fetch query params).map (buildRowDict (cursor.descr query params))),
       (cursor_execute cursor query params).2.1)
  db_cursor_run dbPath body

/-- `add_field(db_path, tablename, field)`: run
`"ALTER TABLE %s ADD COLUMN %s %s" % (tablename, field['name'], field['type'])`
directly on the cursor — note `cursor.execute`, not `cursor_execute`, so
a single attempt with no retry machinery.  `field` is the dict
`{'name': …, 'type': …}`, modelled as the pair of those two entries. -/
def add_field (dbPath : String) (cursor : Cursor) (tablename : String)
    (field : String × String) : Except PyErr Unit × List Event :=
  let query := "ALTER TABLE " ++ tablename ++ " ADD COLUMN " ++ field.1 ++ " " ++ field.2
  db_cursor_run dbPath (cursor.exec query [] 1, [])

/-- Modelled from the spec: the effect of one SQL `SET` clause list on one
row.  The database engine executing the `UPDATE` statement is not part of
this repository; per the spec, the statement assigns each listed
`(column, value)` pair of the `SET` clause to the row, leaving every
other column of the row untouched.  A row is a total map from column
name to value. -/
def applyAssignments (r : String → PyVal) (sets : List (String × PyVal)) :
    String → PyVal :=
  sets.foldl (fun acc cv => fun c => if c = cv.1 then cv.2 else acc c) r

/-- Modelled from the spec: execution of the statement
`UPDATE table SET c1=?, …, cn=? WHERE cond=?` built by `db_update`.  Per
the spec, the engine applies the `SET` assignments exactly to the rows
whose `cond` column equals the condition value and leaves every other
row unchanged. -/
def execUpdate (tbl : List (String → PyVal)) (sets : List (String × PyVal))
    (cond : String × PyVal) : List (String → PyVal) :=
  tbl.map (fun r => if r cond.1 = cond.2 then applyAssignments r sets else r)

/-- The state transformation performed by `db_update(db_path, table,
updated_fields, row)`: the `SET` columns are `updated_fields.keys()`, the
bound values are `_decode_utf8_values(updated_fields.values())`, and the
condition is the `(column, value)` pair `row`. -/
def db_update_effect (tbl : List (String → PyVal))
    (updated_fields : List (String × PyVal)) (row : String × PyVal) :
    List (String → PyVal) :=
  execUpdate tbl
    ((updated_fields.map Prod.fst).zip (decode_utf8_values (updated_fields.map Prod.snd)))
    row

/-- The row every out-of-range `List.getD` read falls back to. -/
def default_row : String → PyVal := fun _ => PyVal.vNull

/-- A database engine whose file stays locked forever: every execution
attempt of every statement raises `sqlite3.OperationalError`. -/
def persistentCursor : Cursor where
  exec := fun _ _ _ => Except.error (PyErr.op "database is locked")
  fetch := fun _ _ => []
  descr := fun _ _ => []
  lastrowid := 0

/-- A database engine whose lock clears after two failed attempts: the
first two executions of any statement raise `sqlite3.OperationalError`
and the third succeeds. -/
def flakyCursor : Cursor where
  exec := fun _ _ n =>
    if n < 3 then Except.error (PyErr.op "database is locked") else Except.ok ()
  fetch := fun _ _ => []
  descr := fun _ _ => []
  lastrowid := 0

/-- A database engine that rejects every statement with
`sqlite3.IntegrityError` (e.g. a UNIQUE constraint violation). -/
def integrityCursor : Cursor where
  exec := fun _ _ _ => Except.error (PyErr.integrity "UNIQUE constraint failed")
  fetch := fun _ _ => []
  descr := fun _ _ => []
  lastrowid := 0

/-- A concrete table row: `{'id': 1, 'name': 'quake'}`. -/
def wit_row1 : String → PyVal :=
  fun c => if c = "id" then PyVal.vInt 1 else PyVal.vStr "quake"

/-- A concrete table row: `{'id': 2, 'name': 'doom'}`. -/
def wit_row2 : String → PyVal :=
  fun c => if c = "id" then PyVal.vInt 2 else PyVal.vStr "doom"

/-- A concrete two-row table state, for evaluating `db_update_effect`. -/
def wit_tbl : List (String → PyVal) := [wit_row1, wit_row2]

/-- A healthy database engine holding a two-row, two-column `games`
table: every statement succeeds on the first attempt. -/
def okCursor : Cursor where
  exec := fun _ _ _ => Except.ok ()
  fetch := fun _ _ => [[PyVal.vInt 1, PyVal.vStr "quake"], [PyVal.vInt 2, PyVal.vStr "doom"]]
  descr := fun _ _ => ["id", "name"]
  lastrowid := 7

theorem cursorExecuteGo_ok {cursor : Cursor} {query : String} {params : List PyVal}
    {attempt : Nat} (h : cursor.exec query params attempt = Except.ok ()) (fuel : Nat) :
    cursorExecuteGo cursor query params attempt fuel = (Except.ok (), [], 1) := by
  match fuel with
  | 0 => simp [cursorExecuteGo, h]
  | 1 => simp [cursorExecuteGo, h]
  | f + 2 => simp [cursorExecuteGo, h]

theorem cursorExecuteGo_nonop {cursor : Cursor} {query : String} {params : List PyVal}
    {attempt : Nat} {e : PyErr} (h : cursor.exec query params attempt = Except.error e)
    (hop : e.isOp = false) (fuel : Nat) :
    cursorExecuteGo cursor query params attempt fuel = (Except.error e, [], 1) := by
  match fuel with
  | 0 => simp [cursorExecuteGo, h]
  | 1 => simp [cursorExecuteGo, h]
  | f + 2 => simp [cursorExecuteGo, h, hop]

theorem cursorExecuteGo_op_last {cursor : Cursor} {query : String} {params : List PyVal}
    {attempt : Nat} {e : PyErr} (h : cursor.exec query params attempt = Except.error e) :
    cursorExecuteGo cursor query params attempt 1 = (Except.error e, [], 1) := by
  simp [cursorExecuteGo, h]

theorem cursorExecuteGo_op_step {cursor : Cursor} {query : String} {params : List PyVal}
    {attempt : Nat} {e : PyErr} {f : Nat}
    (h : cursor.exec query params attempt = Except.error e) (hop : e.isOp = true) :
    cursorExecuteGo cursor query params attempt (f + 2) =
      ((cursorExecuteGo cursor query params (attempt + 1) (f + 1)).1,
       Event.logRetry query (f + 1) :: Event.logErr e.msg :: Event.sleep 1 ::
         (cursorExecuteGo cursor query params (attempt + 1) (f + 1)).2.1,
       (cursorExecuteGo cursor query params (attempt + 1) (f + 1)).2.2 + 1) := by
  simp [cursorExecuteGo, h, hop]

theorem dictAssign_fresh {d : List (String × PyVal)} {k : String} (v : PyVal)
    (h : k ∉ d.map Prod.fst) : dictAssign d k v = d ++ [(k, v)] := by
  simp [dictAssign, h]

theorem buildRow_foldl_eq_zip (row : List PyVal) :
    ∀ (ns : List String) (k : Nat) (d : List (String × PyVal)),
      ns.Nodup → (∀ n ∈ ns, n ∉ d.map Prod.fst) → k + ns.length ≤ row.length →
      List.foldl (fun d ic => dictAssign d ic.2 (row.getD ic.1 PyVal.vNull)) d
          (List.enumFrom k ns)
        = d ++ ns.zip (row.drop k) := by
  intro ns
  induction ns with
  | nil => intro k d _ _ _; simp
  | cons n ns ih =>
    intro k d hnd hfresh hlen
    have hk : k < row.length := by
      have := hlen
      simp only [List.length_cons] at this
      omega
    have hstep : dictAssign d n (row.getD k PyVal.vNull)
        = d ++ [(n, row.getD k PyVal.vNull)] :=
      dictAssign_fresh _ (hfresh n (List.mem_cons_self n ns))
    have hfresh' : ∀ m ∈ ns, m ∉ (d ++ [(n, row.getD k PyVal.vNull)]).map Prod.fst := by
      intro m hm
      have hmn : m ≠ n := by
        intro hEq
        exact (List.nodup_cons.mp hnd).1 (hEq ▸ hm)
      have hmd : m ∉ d.map Prod.fst := hfresh m (List.mem_cons_of_mem n hm)
      simp [hmd, hmn]
    have hlen' : (k + 1) + ns.length ≤ row.length := by
      simp only [List.length_cons] at hlen
      omega
    have hrec := ih (k + 1) (d ++ [(n, row.getD k PyVal.vNull)])
      (List.nodup_cons.mp hnd).2 hfresh' hlen'
    have hgetD : row.getD k PyVal.vNull = row[k] := by
      simp [List.getD_eq_getD_get?, List.getElem?_eq_getElem hk]
    have hdrop : row.drop k = row.getD k PyVal.vNull :: row.drop (k + 1) := by
      rw [List.drop_eq_getElem_cons hk, hgetD]
    simp only [List.enumFrom_cons, List.foldl_cons]
    rw [hstep, hrec, hdrop, List.zip_cons_cons]
    simp

theorem buildRowDict_eq_zip {ns : List String} {row : List PyVal}
    (hnd : ns.Nodup) (hlen : ns.length ≤ row.length) :
    buildRowDict ns row = ns.zip row := by
  have h := buildRow_foldl_eq_zip row ns 0 [] hnd (by simp) (by omega)
  simpa [buildRowDict, List.enum] using h

theorem applyAssignments_frame {sets : List (String × PyVal)} {c : String}
    (h : c ∉ sets.map Prod.fst) (r : String → PyVal) :
    applyAssignments r sets c = r c := by
  induction sets generalizing r with
  | nil => rfl
  | cons cv sets ih =>
    simp only [List.map_cons, List.mem_cons] at h
    push_neg at h
    simp only [applyAssignments, List.foldl_cons] at *
    rw [ih h.2]
    simp [h.1]

theorem cursorExecuteGo_persistent (cursor : Cursor) (query : String)
    (params : List PyVal) (m : Nat → String)
    (hfail : ∀ n, 1 ≤ n → n ≤ 5 →
      cursor.exec query params n = Except.error (PyErr.op (m n))) :
    cursorExecuteGo cursor query params 1 5 =
      (Except.error (PyErr.op (m 5)),
       [Event.logRetry query 4, Event.logErr (m 1), Event.sleep 1,
        Event.logRetry query 3, Event.logErr (m 2), Event.sleep 1,
        Event.logRetry query 2, Event.logErr (m 3), Event.sleep 1,
        Event.logRetry query 1, Event.logErr (m 4), Event.sleep 1],
       5) := by
  have e5 : cursorExecuteGo cursor query params 5 1
      = (Except.error (PyErr.op (m 5)), [], 1) :=
    cursorExecuteGo_op_last (hfail 5 (by decide) (by decide))
  have e4 : cursorExecuteGo cursor query params 4 2
      = ((cursorExecuteGo cursor query params 5 1).1,
         Event.logRetry query 1 :: Event.logErr (m 4) :: Event.sleep 1 ::
           (cursorExecuteGo cursor query params 5 1).2.1,
         (cursorExecuteGo cursor query params 5 1).2.2 + 1) :=
    cursorExecuteGo_op_step (f := 0) (hfail 4 (by decide) (by decide)) rfl
  have e3 : cursorExecuteGo cursor query params 3 3
      = ((cursorExecuteGo cursor query params 4 2).1,
         Event.logRetry query 2 :: Event.logErr (m 3) :: Event.sleep 1 ::
           (cursorExecuteGo cursor query params 4 2).2.1,
         (cursorExecuteGo cursor query params 4 2).2.2 + 1) :=
    cursorExecuteGo_op_step (f := 1) (hfail 3 (by decide) (by decide)) rfl
  have e2 : cursorExecuteGo cursor query params 2 4
      = ((cursorExecuteGo cursor query params 3 3).1,
         Event.logRetry query 3 :: Event.logErr (m 2) :: Event.sleep 1 ::
           (cursorExecuteGo cursor query params 3 3).2.1,
         (cursorExecuteGo cursor query params 3 3).2.2 + 1) :=
    cursorExecuteGo_op_step (f := 2) (hfail 2 (by decide) (by decide)) rfl
  have e1 : cursorExecuteGo cursor query params 1 5
      = ((cursorExecuteGo cursor query params 2 4).1,
         Event.logRetry query 4 :: Event.logErr (m 1) :: Event.sleep 1 ::
           (cursorExecuteGo cursor query params 2 4).2.1,
         (cursorExecuteGo cursor query params 2 4).2.2 + 1) :=
    cursorExecuteGo_op_step (f := 3) (hfail 1 (by decide) (by decide)) rfl
  rw [e1, e2, e3, e4, e5]

/-- C1: a query whose execution raises `sqlite3.OperationalError` on every
attempt makes `cursor_execute` attempt execution exactly
`DB_RETRIES = 5` times in total and then re-raise the failure of the
final (fifth) attempt to the caller. -/
theorem cursor_execute_persistent_op_failure (cursor : Cursor) (query : String)
    (params : List PyVal) (m : Nat → String)
    (hfail : ∀ n, 1 ≤ n → n ≤ DB_RETRIES →
      cursor.exec query params n = Except.error (PyErr.op (m n))) :
    (cursor_execute cursor query params).1 = Except.error (PyErr.op (m 5)) ∧
    (cursor_execute cursor query params).2.2 = 5 := by
  have h := cursorExecuteGo_persistent cursor query params m hfail
  refine ⟨?_, ?_⟩ <;> simp [cursor_execute, DB_RETRIES, h]

/-- C1 witness: the always-locked engine on a concrete query. -/
theorem cursor_execute_persistent_op_failure_witness :
    (cursor_execute persistentCursor "select * from games" []).1
      = Except.error (PyErr.op "database is locked") ∧
    (cursor_execute persistentCursor "select * from games" []).2.2 = 5 :=
  cursor_execute_persistent_op_failure persistentCursor "select * from games" []
    (fun _ => "database is locked") (fun _ _ _ => rfl)

/-- C2: a query that raises `sqlite3.OperationalError` on the first
`k - 1` attempts (`1 ≤ k ≤ 5`) and succeeds on attempt `k` makes
`cursor_execute` return the successful result after exactly `k` attempts
and raise nothing. -/
theorem cursor_execute_succeeds_within_retries (cursor : Cursor) (query : String)
    (params : List PyVal) (k : Nat) (m : Nat → String)
    (hk1 : 1 ≤ k) (hk5 : k ≤ DB_RETRIES)
    (hfail : ∀ n, 1 ≤ n → n < k →
      cursor.exec query params n = Except.error (PyErr.op (m n)))
    (hok : cursor.exec query params k = Except.ok ()) :
    (cursor_execute cursor query params).1 = Except.ok () ∧
    (cursor_execute cursor query params).2.2 = k := by
  have hk5' : k ≤ 5 := hk5
  interval_cases k
  · refine ⟨?_, ?_⟩ <;> simp [cursor_execute, DB_RETRIES, cursorExecuteGo_ok hok]
  · have e1 : cursorExecuteGo cursor query params 1 5
        = ((cursorExecuteGo cursor query params 2 4).1,
           Event.logRetry query 4 :: Event.logErr (m 1) :: Event.sleep 1 ::
             (cursorExecuteGo cursor query params 2 4).2.1,
           (cursorExecuteGo cursor query params 2 4).2.2 + 1) :=
      cursorExecuteGo_op_step (f := 3) (hfail 1 (by decide) (by decide)) rfl
    have e2 := cursorExecuteGo_ok hok 4
    refine ⟨?_, ?_⟩ <;> simp [cursor_execute, DB_RETRIES, e1, e2]
  · have e1 : cursorExecuteGo cursor query params 1 5
        = ((cursorExecuteGo cursor query params 2 4).1,
           Event.logRetry query 4 :: Event.logErr (m 1) :: Event.sleep 1 ::
             (cursorExecuteGo cursor query params 2 4).2.1,
           (cursorExecuteGo cursor query params 2 4).2.2 + 1) :=
      cursorExecuteGo_op_step (f := 3) (hfail 1 (by decide) (by decide)) rfl
    have e2 : cursorExecuteGo cursor query params 2 4
        = ((cursorExecuteGo cursor query params 3 3).1,
           Event.logRetry query 3 :: Event.logErr (m 2) :: Event.sleep 1 ::
             (cursorExecuteGo cursor query params 3 3).2.1,
           (cursorExecuteGo cursor query params 3 3).2.2 + 1) :=
      cursorExecuteGo_op_step (f := 2) (hfail 2 (by decide) (by decide)) rfl
    have e3 := cursorExecuteGo_ok hok 3
    refine ⟨?_, ?_⟩ <;> simp [cursor_execute, DB_RETRIES, e1, e2, e3]
  · have e1 : cursorExecuteGo cursor query params 1 5
        = ((cursorExecuteGo cursor query params 2 4).1,
           Event.logRetry query 4 :: Event.logErr (m 1) :: Event.sleep 1 ::
             (cursorExecuteGo cursor query params 2 4).2.1,
           (cursorExecuteGo cursor query params 2 4).2.2 + 1) :=
      cursorExecuteGo_op_step (f := 3) (hfail 1 (by decide) (by decide)) rfl
    have e2 : cursorExecuteGo cursor query params 2 4
        = ((cursorExecuteGo cursor query params 3 3).1,
           Event.logRetry query 3 :: Event.logErr (m 2) :: Event.sleep 1 ::
             (cursorExecuteGo cursor query params 3 3).2.1,
           (cursorExecuteGo cursor query params 3 3).2.2 + 1) :=
      cursorExecuteGo_op_step (f := 2) (hfail 2 (by decide) (by decide)) rfl
    have e3 : cursorExecuteGo cursor query params 3 3
        = ((cursorExecuteGo cursor query params 4 2).1,
           Event.logRetry query 2 :: Event.logErr (m 3) :: Event.sleep 1 ::
             (cursorExecuteGo cursor query params 4 2).2.1,
           (cursorExecuteGo cursor query params 4 2).2.2 + 1) :=
      cursorExecuteGo_op_step (f := 1) (hfail 3 (by decide) (by decide)) rfl
    have e4 := cursorExecuteGo_ok hok 2
    refine ⟨?_, ?_⟩ <;> simp [cursor_execute, DB_RETRIES, e1, e2, e3, e4]
  · have e1 : cursorExecuteGo cursor query params 1 5
        = ((cursorExecuteGo cursor query params 2 4).1,
           Event.logRetry query 4 :: Event.logErr (m 1) :: Event.sleep 1 ::
             (cursorExecuteGo cursor query params 2 4).2.1,
           (cursorExecuteGo cursor query params 2 4).2.2 + 1) :=
      cursorExecuteGo_op_step (f := 3) (hfail 1 (by decide) (by decide)) rfl
    have e2 : cursorExecuteGo cursor query params 2 4
        = ((cursorExecuteGo cursor query params 3 3).1,
           Event.logRetry query 3 :: Event.logErr (m 2) :: Event.sleep 1 ::
             (cursorExecuteGo cursor query params 3 3).2.1,
           (cursorExecuteGo cursor query params 3 3).2.2 + 1) :=
      cursorExecuteGo_op_step (f := 2) (hfail 2 (by decide) (by decide)) rfl
    have e3 : cursorExecuteGo cursor query params 3 3
        = ((cursorExecuteGo cursor query params 4 2).1,
           Event.logRetry query 2 :: Event.logErr (m 3) :: Event.sleep 1 ::
             (cursorExecuteGo cursor query params 4 2).2.1,
           (cursorExecuteGo cursor query params 4 2).2.2 + 1) :=
      cursorExecuteGo_op_step (f := 1) (hfail 3 (by decide) (by decide)) rfl
    have e4 : cursorExecuteGo cursor query params 4 2
        = ((cursorExecuteGo cursor query params 5 1).1,
           Event.logRetry query 1 :: Event.logErr (m 4) :: Event.sleep 1 ::
             (cursorExecuteGo cursor query params 5 1).2.1,
           (cursorExecuteGo cursor query params 5 1).2.2 + 1) :=
      cursorExecuteGo_op_step (f := 0) (hfail 4 (by decide) (by decide)) rfl
    have e5 := cursorExecuteGo_ok hok 1
    refine ⟨?_, ?_⟩ <;> simp [cursor_execute, DB_RETRIES, e1, e2, e3, e4, e5]

/-- C2 witness: an engine whose lock clears on the third attempt. -/
theorem cursor_execute_succeeds_within_retries_witness :
    (cursor_execute flakyCursor "select * from games" []).1 = Except.ok () ∧
    (cursor_execute flakyCursor "select * from games" []).2.2 = 3 :=
  cursor_execute_succeeds_within_retries flakyCursor "select * from games" [] 3
    (fun _ => "database is locked") (by decide) (by decide)
    (fun n _ hn => by simp [flakyCursor, hn])
    (by simp [flakyCursor])

/-- C3: a non-transient error — any exception that is not
`sqlite3.OperationalError`, e.g. an integrity violation — propagates to
the caller of `cursor_execute` immediately: exactly one execution
attempt, no retry, no sleep and no retry-log entry. -/
theorem cursor_execute_nonop_propagates (cursor : Cursor) (query : String)
    (params : List PyVal) (e : PyErr)
    (h1 : cursor.exec query params 1 = Except.error e) (hop : e.isOp = false) :
    cursor_execute cursor query params = (Except.error e, [], 1) := by
  simpa [cursor_execute, DB_RETRIES] using cursorExecuteGo_nonop h1 hop DB_RETRIES

/-- C3 witness: an integrity violation on a concrete insert. -/
theorem cursor_execute_nonop_propagates_witness :
    cursor_execute integrityCursor "insert into games(slug) values (?)"
        [PyVal.vStr "zork"]
      = (Except.error (PyErr.integrity "UNIQUE constraint failed"), [], 1) :=
  cursor_execute_nonop_propagates integrityCursor
    "insert into games(slug) values (?)" [PyVal.vStr "zork"]
    (PyErr.integrity "UNIQUE constraint failed") rfl rfl

/-- C4 counterexample: on an engine that raises
`sqlite3.OperationalError` forever, `cursor_execute` makes 5 failed
attempts but writes only 4 retry-log entries and sleeps only 4 times —
not one log entry and one sleep per failed attempt as claimed. -/
theorem cursor_execute_log_per_failed_attempt_cex :
    (cursor_execute persistentCursor "select * from games" []).2.2 = 5 ∧
    ((cursor_execute persistentCursor "select * from games" []).2.1.filter
        Event.isRetryLog).length = 4 ∧
    ((cursor_execute persistentCursor "select * from games" []).2.1.filter
        Event.isSleep).length = 4 ∧
    ((cursor_execute persistentCursor "select * from games" []).2.1.filter
        Event.isRetryLog).length ≠ 5 := by
  decide

/-- C4 (amended): every failed attempt that is followed by another
attempt is logged with the remaining-retry count and followed by a sleep
of 1 time-unit; the final attempt of a persistent failure is re-raised
without a log entry or sleep, so a persistent failure produces exactly
`DB_RETRIES - 1 = 4` log entries (with remaining counts 4, 3, 2, 1) and
4 sleeps for its 5 failed attempts. -/
theorem cursor_execute_retry_trace (cursor : Cursor) (query : String)
    (params : List PyVal) (m : Nat → String)
    (hfail : ∀ n, 1 ≤ n → n ≤ DB_RETRIES →
      cursor.exec query params n = Except.error (PyErr.op (m n))) :
    (cursor_execute cursor query params).2.1 =
      [Event.logRetry query 4, Event.logErr (m 1), Event.sleep 1,
       Event.logRetry query 3, Event.logErr (m 2), Event.sleep 1,
       Event.logRetry query 2, Event.logErr (m 3), Event.sleep 1,
       Event.logRetry query 1, Event.logErr (m 4), Event.sleep 1] ∧
    (cursor_execute cursor query params).2.2 = 5 := by
  have h := cursorExecuteGo_persistent cursor query params m hfail
  refine ⟨?_, ?_⟩ <;> simp [cursor_execute, DB_RETRIES, h]

/-- C4 witness: the amended trace on the always-locked engine. -/
theorem cursor_execute_retry_trace_witness :
    (cursor_execute persistentCursor "delete from games where id=?" []).2.1 =
      [Event.logRetry "delete from games where id=?" 4,
       Event.logErr "database is locked", Event.sleep 1,
       Event.logRetry "delete from games where id=?" 3,
       Event.logErr "database is locked", Event.sleep 1,
       Event.logRetry "delete from games where id=?" 2,
       Event.logErr "database is locked", Event.sleep 1,
       Event.logRetry "delete from games where id=?" 1,
       Event.logErr "database is locked", Event.sleep 1] ∧
    (cursor_execute persistentCursor "delete from games where id=?" []).2.2 = 5 :=
  cursor_execute_retry_trace persistentCursor "delete from games where id=?" []
    (fun _ => "database is locked") (fun _ _ _ => rfl)

/-- C5: every helper — insert, update, delete, select and raw query —
opens its own connection per call, and that connection is committed and
then closed before the helper returns; the statement holds for every
engine behaviour, so in particular both when the enclosed execution
succeeds and when it raises: the trace is always
`connect dbPath :: inner ++ [commit, close]`. -/
theorem helpers_scoped_connection (dbPath : String) (cursor : Cursor)
    (table : String) (fields : List (String × PyVal))
    (updated_fields : List (String × PyVal)) (row : String × PyVal)
    (field : String) (value : PyVal)
    (sfields : Option (List String)) (condition : Option (List PyVal))
    (query : String) (params : List PyVal) :
    (∃ inner, (db_insert dbPath cursor table fields).2
        = Event.connect dbPath :: (inner ++ [Event.commit, Event.close])) ∧
    (∃ inner, (db_update dbPath cursor table updated_fields row).2
        = Event.connect dbPath :: (inner ++ [Event.commit, Event.close])) ∧
    (∃ inner, (db_delete dbPath cursor table field value).2
        = Event.connect dbPath :: (inner ++ [Event.commit, Event.close])) ∧
    (∃ inner, (db_select dbPath cursor table sfields condition).2
        = Event.connect dbPath :: (inner ++ [Event.commit, Event.close])) ∧
    (∃ inner, (db_query dbPath cursor query params).2
        = Event.connect dbPath :: (inner ++ [Event.commit, Event.close])) :=
  ⟨⟨_, rfl⟩, ⟨_, rfl⟩, ⟨_, rfl⟩, ⟨_, rfl⟩, ⟨_, rfl⟩⟩

/-- C6: when the insert statement built by `db_insert` raises
`sqlite3.IntegrityError`, `db_insert` prints the columns and the values
of the attempted insert and re-raises the same error immediately; the
enclosed executor makes exactly one attempt, so there is no retry, no
sleep and no retry log. -/
theorem db_insert_integrity_logged (dbPath : String) (cursor : Cursor)
    (table : String) (fields : List (String × PyVal)) (msg : String)
    (h : cursor.exec (insert_query table fields)
        (decode_utf8_values (fields.map Prod.snd)) 1
      = Except.error (PyErr.integrity msg)) :
    db_insert dbPath cursor table fields
      = (Except.error (PyErr.integrity msg),
         [Event.connect dbPath,
          Event.printStr (String.intercalate ", " (fields.map Prod.fst)),
          Event.printVals (decode_utf8_values (fields.map Prod.snd)),
          Event.commit, Event.close]) ∧
    (cursor_execute cursor (insert_query table fields)
        (decode_utf8_values (fields.map Prod.snd))).2.2 = 1 := by
  have hce : cursor_execute cursor (insert_query table fields)
      (decode_utf8_values (fields.map Prod.snd))
      = (Except.error (PyErr.integrity msg), [], 1) := by
    simpa [cursor_execute, DB_RETRIES] using cursorExecuteGo_nonop h rfl DB_RETRIES
  refine ⟨?_, by rw [hce]⟩
  simp [db_insert, hce, db_cursor_run]

/-- C6 witness: a UNIQUE-violating insert on a concrete engine. -/
theorem db_insert_integrity_logged_witness :
    db_insert "/tmp/pga.db" integrityCursor "games" [("slug", PyVal.vStr "zork")]
      = (Except.error (PyErr.integrity "UNIQUE constraint failed"),
         [Event.connect "/tmp/pga.db", Event.printStr "slug",
          Event.printVals [PyVal.vStr "zork"], Event.commit, Event.close]) ∧
    (cursor_execute integrityCursor
        (insert_query "games" [("slug", PyVal.vStr "zork")])
        (decode_utf8_values ([("slug", PyVal.vStr "zork")].map Prod.snd))).2.2 = 1 :=
  db_insert_integrity_logged "/tmp/pga.db" integrityCursor "games"
    [("slug", PyVal.vStr "zork")] "UNIQUE constraint failed" rfl

/-- C9: `add_field` runs its ALTER TABLE statement through
`cursor.execute`, not through the retrying `cursor_execute`: a transient
operational error raised by the single attempt propagates to the caller
at once, and the trace holds no retry log and no sleep. -/
theorem add_field_no_retry (dbPath : String) (cursor : Cursor)
    (tablename : String) (field : String × String) (msg : String)
    (h : cursor.exec
        ("ALTER TABLE " ++ tablename ++ " ADD COLUMN " ++ field.1 ++ " " ++ field.2)
        [] 1 = Except.error (PyErr.op msg)) :
    add_field dbPath cursor tablename field
      = (Except.error (PyErr.op msg),
         [Event.connect dbPath, Event.commit, Event.close]) := by
  simp [add_field, db_cursor_run, h]

/-- C9 witness: ALTER TABLE on the always-locked engine. -/
theorem add_field_no_retry_witness :
    add_field "/tmp/pga.db" persistentCursor "games" ("hidden", "INTEGER")
      = (Except.error (PyErr.op "database is locked"),
         [Event.connect "/tmp/pga.db", Event.commit, Event.close]) :=
  add_field_no_retry "/tmp/pga.db" persistentCursor "games" ("hidden", "INTEGER")
    "database is locked" rfl

/-- C10: in `db_select` an empty (falsy) `fields` sequence is treated
identically to `fields=None` and selects `*`, and a falsy condition is
treated identically to no condition: the calls return the same result
and produce the same trace on every engine state. -/
theorem db_select_falsy_args (dbPath : String) (cursor : Cursor) (table : String)
    (fields : Option (List String)) (condition : Option (List PyVal)) :
    db_select dbPath cursor table (some []) condition
      = db_select dbPath cursor table none condition ∧
    db_select dbPath cursor table fields (some [])
      = db_select dbPath cursor table fields none :=
  ⟨rfl, rfl⟩

/-- C7: for every raw query (`db_query`) and every select (`db_select`,
with its optional column subset and optional equality condition) that
executes successfully, the return value is an eagerly materialized
ordered sequence of rows — one column-name-to-value mapping per fetched
result row, in cursor order, with the names taken from the cursor's
result description: with distinct description names each row mapping is
exactly `column_names.zip row`. -/
theorem db_query_select_materializes (dbPath : String) (cursor : Cursor)
    (query : String) (params : List PyVal)
    (table : String) (fields : Option (List String))
    (condition : Option (List PyVal)) (q2 : String) (p2 : List PyVal)
    (hq : cursor.exec query params 1 = Except.ok ())
    (hnd : (cursor.descr query params).Nodup)
    (hlen : ∀ r ∈ cursor.fetch query params,
      (cursor.descr query params).length ≤ r.length)
    (hsel : select_query_params table fields condition = Except.ok (q2, p2))
    (hq2 : cursor.exec q2 p2 1 = Except.ok ())
    (hnd2 : (cursor.descr q2 p2).Nodup)
    (hlen2 : ∀ r ∈ cursor.fetch q2 p2, (cursor.descr q2 p2).length ≤ r.length) :
    (db_query dbPath cursor query params).1
      = Except.ok ((cursor.fetch query params).map
          (fun r => (cursor.descr query params).zip r)) ∧
    (db_select dbPath cursor table fields condition).1
      = Except.ok ((cursor.fetch q2 p2).map
          (fun r => (cursor.descr q2 p2).zip r)) := by
  have hce : cursor_execute cursor query params = (Except.ok (), [], 1) := by
    simpa [cursor_execute] using cursorExecuteGo_ok hq DB_RETRIES
  have hce2 : cursor_execute cursor q2 p2 = (Except.ok (), [], 1) := by
    simpa [cursor_execute] using cursorExecuteGo_ok hq2 DB_RETRIES
  have hmap : (cursor.fetch query params).map (buildRowDict (cursor.descr query params))
      = (cursor.fetch query params).map
          (fun r => (cursor.descr query params).zip r) :=
    List.map_congr_left (fun r hr => buildRowDict_eq_zip hnd (hlen r hr))
  have hmap2 : (cursor.fetch q2 p2).map (buildRowDict (cursor.descr q2 p2))
      = (cursor.fetch q2 p2).map (fun r => (cursor.descr q2 p2).zip r) :=
    List.map_congr_left (fun r hr => buildRowDict_eq_zip hnd2 (hlen2 r hr))
  constructor
  · simp [db_query, hce, db_cursor_run, hmap]
  · simp [db_select, hsel, hce2, db_cursor_run, hmap2]

/-- C7 witness: a raw query and a filtered select on the healthy
two-row engine both materialize `[{id: 1, name: quake}, {id: 2, name:
doom}]`. -/
theorem db_query_select_materializes_witness :
    (db_query "/tmp/pga.db" okCursor "select * from games" []).1
      = Except.ok [[("id", PyVal.vInt 1), ("name", PyVal.vStr "quake")],
                   [("id", PyVal.vInt 2), ("name", PyVal.vStr "doom")]] ∧
    (db_select "/tmp/pga.db" okCursor "games" (some ["id", "name"])
        (some [PyVal.vStr "id", PyVal.vInt 1])).1
      = Except.ok [[("id", PyVal.vInt 1), ("name", PyVal.vStr "quake")],
                   [("id", PyVal.vInt 2), ("name", PyVal.vStr "doom")]] :=
  db_query_select_materializes "/tmp/pga.db" okCursor "select * from games" []
    "games" (some ["id", "name"]) (some [PyVal.vStr "id", PyVal.vInt 1])
    "SELECT id, name FROM games where id=?" [PyVal.vInt 1]
    rfl (by decide) (by decide) rfl rfl (by decide) (by decide)

theorem row_getD_lt (tbl : List (String → PyVal)) (i : Nat) (hi : i < tbl.length) :
    tbl.getD i default_row = tbl[i] := by
  simp [List.getD_eq_getD_get?, List.getElem?_eq_getElem hi]

theorem execUpdate_getD (tbl : List (String → PyVal)) (sets : List (String × PyVal))
    (cond : String × PyVal) (i : Nat) (hi : i < tbl.length) :
    (execUpdate tbl sets cond).getD i default_row
      = if tbl[i] cond.1 = cond.2 then applyAssignments tbl[i] sets else tbl[i] := by
  have hsome : tbl[i]? = some tbl[i] := List.getElem?_eq_getElem hi
  simp [execUpdate, List.getD_eq_getD_get?, List.getElem?_map, hsome]

/-- C8: the `UPDATE` statement `db_update` issues — `SET` columns from
`updated_fields`, equality condition from `row` — changes only the rows
matching the condition and only the columns named in `updated_fields`;
every other row, and every other column of every row, is unchanged, and
the number of rows is preserved.  (Statement execution is the
spec-modelled `execUpdate`; the columns, values and condition it is
applied to are the ones `db_update` builds.) -/
theorem db_update_changes_only_target (tbl : List (String → PyVal))
    (updated_fields : List (String × PyVal)) (row : String × PyVal) :
    (db_update_effect tbl updated_fields row).length = tbl.length ∧
    (∀ i, i < tbl.length → (tbl.getD i default_row) row.1 ≠ row.2 →
      (db_update_effect tbl updated_fields row).getD i default_row
        = tbl.getD i default_row) ∧
    (∀ i c, c ∉ updated_fields.map Prod.fst →
      (db_update_effect tbl updated_fields row).getD i default_row c
        = tbl.getD i default_row c) := by
  have hkeys : ((updated_fields.map Prod.fst).zip
      (decode_utf8_values (updated_fields.map Prod.snd))).map Prod.fst
      = updated_fields.map Prod.fst :=
    List.map_fst_zip _ _ (by simp [decode_utf8_values])
  refine ⟨by simp [db_update_effect, execUpdate], ?_, ?_⟩
  · intro i hi hne
    rw [row_getD_lt tbl i hi] at hne ⊢
    simp only [db_update_effect]
    rw [execUpdate_getD tbl _ row i hi, if_neg hne]
  · intro i c hc
    have hc' : c ∉ ((updated_fields.map Prod.fst).zip
        (decode_utf8_values (updated_fields.map Prod.snd))).map Prod.fst := by
      rw [hkeys]; exact hc
    by_cases hi : i < tbl.length
    · simp only [db_update_effect]
      rw [execUpdate_getD tbl _ row i hi, row_getD_lt tbl i hi]
      split_ifs with hmatch
      · exact applyAssignments_frame hc' _
      · rfl
    · have hge : tbl.length ≤ i := Nat.le_of_not_lt hi
      have h1 : tbl.getD i default_row = default_row := by
        simp [List.getD_eq_getD_get?, List.getElem?_eq_none hge]
      have h2 : (db_update_effect tbl updated_fields row).getD i default_row
          = default_row := by
        have hlen : (db_update_effect tbl updated_fields row).length ≤ i := by
          simpa [db_update_effect, execUpdate] using hge
        simp [List.getD_eq_getD_get?, List.getElem?_eq_none hlen]
      rw [h1, h2]

/-- C8 witness: updating `name` where `id = 1` in the concrete two-row
table leaves row 2 untouched and leaves the `id` column of the matching
row 1 untouched. -/
theorem db_update_changes_only_target_witness :
    ((wit_tbl.getD 1 default_row) "id" ≠ PyVal.vInt 1) ∧
    (db_update_effect wit_tbl [("name", PyVal.vStr "zork")]
        ("id", PyVal.vInt 1)).getD 1 default_row
      = wit_tbl.getD 1 default_row ∧
    (db_update_effect wit_tbl [("name", PyVal.vStr "zork")]
        ("id", PyVal.vInt 1)).getD 0 default_row "id"
      = wit_tbl.getD 0 default_row "id" :=
  ⟨by decide,
   (db_update_changes_only_target wit_tbl [("name", PyVal.vStr "zork")]
      ("id", PyVal.vInt 1)).2.1 1 (by decide) (by decide),
   (db_update_changes_only_target wit_tbl [("name", PyVal.vStr "zork")]
      ("id", PyVal.vInt 1)).2.2 0 "id" (by decide)⟩
